import Mathlib

/-!
Verification of the token-lifecycle core of the FastAPI auth service
(`src/routes/auth.py`).  The route handlers `login`, `refresh_token`,
`confirmed_email` and `request_email` are embedded directly from the
source.  The collaborators they call (`auth_service`, the users
repository) live outside the provided sources, so those are modelled
from the specification, as marked on each definition.
-/

/-- The purpose tag embedded in every signed token. -/
inductive Purpose where
  | access
  | refresh
  | emailConfirmation
deriving DecidableEq, Repr

/-- Modelled from the spec: a decoded token payload as produced by the
missing `TokenCodec` — subject email, purpose tag, issued-at and
expires-at instants.  The signed string is identified with its payload;
signature failures are outside this embedding. -/
structure Token where
  sub : String
  purpose : Purpose
  iat : Nat
  exp : Nat
deriving DecidableEq, Repr

/-- The failure taxonomy of §7 of the spec, plus `attributeError`, which
models a Python `AttributeError` escaping a route handler (dereferencing
an attribute of `None`). -/
inductive AuthError where
  | malformed
  | badSignature
  | expired
  | wrongPurpose
  | notFound
  | unconfirmed
  | badCredentials
  | reuseDetected
  | attributeError (attr : String)
deriving DecidableEq, Repr

/-- A principal record as the routes read it: email, password hash,
confirmed flag and the (nullable) stored refresh token. -/
structure User where
  email : String
  password : String
  confirmed : Bool
  refresh_token : Option Token
deriving DecidableEq, Repr

/-- The persistence collaborator's state: the user table. -/
def DB := List User

/-- Modelled from the spec: the missing repository function
`get_user_by_email` — look the principal up by email. -/
def get_user_by_email (email : String) (db : DB) : Option User :=
  db.find? (fun u => u.email = email)

/-- Modelled from the spec: the missing repository function
`update_token` — overwrite the principal's stored refresh token
(`none` clears it). -/
def update_token (email : String) (tok : Option Token) (db : DB) : DB :=
  db.map (fun u => if u.email = email then { u with refresh_token := tok } else u)

/-- Modelled from the spec: the missing repository function
`confirmed_email` — set the principal's confirmed flag. -/
def set_confirmed (email : String) (db : DB) : DB :=
  db.map (fun u => if u.email = email then { u with confirmed := true } else u)

/-- TTL configuration consumed by the token service. -/
structure AuthConfig where
  access_ttl : Nat
  refresh_ttl : Nat
  confirmation_ttl : Nat
deriving Repr

/-- Modelled from the spec: `TokenCodec.decode` of the missing auth
service — fails `Expired` if now > expires-at, `WrongPurpose` if the
embedded purpose differs from the expected one, else returns the
subject. -/
def decode (expected : Purpose) (now : Nat) (t : Token) : Except AuthError String :=
  if t.exp < now then .error .expired
  else if t.purpose ≠ expected then .error .wrongPurpose
  else .ok t.sub

/-- Modelled from the spec: `create_access_token` of the missing auth
service. -/
def create_access_token (cfg : AuthConfig) (email : String) (now : Nat) : Token :=
  ⟨email, .access, now, now + cfg.access_ttl⟩

/-- Modelled from the spec: `create_refresh_token` of the missing auth
service. -/
def create_refresh_token (cfg : AuthConfig) (email : String) (now : Nat) : Token :=
  ⟨email, .refresh, now, now + cfg.refresh_ttl⟩

/-- Modelled from the spec: `decode_refresh_token` of the missing auth
service — decode expecting purpose `refresh`. -/
def decode_refresh_token (now : Nat) (t : Token) : Except AuthError String :=
  decode .refresh now t

/-- Modelled from the spec: `get_email_from_token` of the missing auth
service — decode expecting the email-confirmation purpose. -/
def get_email_from_token (now : Nat) (t : Token) : Except AuthError String :=
  decode .emailConfirmation now t

/-- The access/refresh pair returned by `login` and `refresh_token`. -/
structure TokenPair where
  access_token : Token
  refresh_token : Token
  token_type : String
deriving DecidableEq, Repr

/-- Outcome messages of the confirmation routes. -/
inductive ConfirmOutcome where
  | confirmed
  | alreadyConfirmed
  | checkYourEmail
deriving DecidableEq, Repr

/-- The `login` route (`src/routes/auth.py:67-101`): look the user up by
email, reject a missing, unconfirmed or wrongly-authenticated user, else
mint an access/refresh pair, persist the refresh token and return the
pair.  `verify` stands for `auth_service.verify_password`.  The second
component is the database after the call. -/
def login (verify : String → String → Bool) (cfg : AuthConfig)
    (email password : String) (now : Nat) (db : DB) :
    Except AuthError TokenPair × DB :=
  match get_user_by_email email db with
  | none => (.error .notFound, db)
  | some user =>
    if !user.confirmed then (.error .unconfirmed, db)
    else if !verify password user.password then (.error .badCredentials, db)
    else
      let access := create_access_token cfg user.email now
      let refresh := create_refresh_token cfg user.email now
      (.ok ⟨access, refresh, "bearer"⟩, update_token user.email (some refresh) db)

/-- The `refresh_token` route (`src/routes/auth.py:104-138`): decode the
presented token, fetch the user, and compare against the stored token.
The source has no `user is None` guard: `user.refresh_token` on line 125
dereferences `None` when the subject has no principal, which is the
`attributeError` branch here.  On mismatch the stored token is cleared
before failing; on match a fresh pair is minted and the new refresh
token stored. -/
def refreshRoute (cfg : AuthConfig) (tok : Token) (now : Nat) (db : DB) :
    Except AuthError TokenPair × DB :=
  match decode_refresh_token now tok with
  | .error e => (.error e, db)
  | .ok email =>
    match get_user_by_email email db with
    | none => (.error (.attributeError "refresh_token"), db)
    | some user =>
      if user.refresh_token ≠ some tok then
        (.error .reuseDetected, update_token user.email none db)
      else
        let access := create_access_token cfg email now
        let refresh := create_refresh_token cfg email now
        (.ok ⟨access, refresh, "bearer"⟩, update_token user.email (some refresh) db)

/-- The `confirmed_email` route (`src/routes/auth.py:141-166`): decode
the confirmation token, fail when the subject has no principal, return
`alreadyConfirmed` without mutation when the flag is set, else set the
flag and return `confirmed`. -/
def confirmed_email_route (tok : Token) (now : Nat) (db : DB) :
    Except AuthError ConfirmOutcome × DB :=
  match get_email_from_token now tok with
  | .error e => (.error e, db)
  | .ok email =>
    match get_user_by_email email db with
    | none => (.error .notFound, db)
    | some user =>
      if user.confirmed then (.ok .alreadyConfirmed, db)
      else (.ok .confirmed, set_confirmed email db)

/-- The `request_email` route (`src/routes/auth.py:169-198`): the source
reads `user.confirmed` on line 192 before the `if user:` guard on line
194, so a missing principal raises `AttributeError` instead of being
handled; otherwise the route only queues mail and never mutates the
database. -/
def request_email (email : String) (db : DB) :
    Except AuthError ConfirmOutcome × DB :=
  match get_user_by_email email db with
  | none => (.error (.attributeError "confirmed"), db)
  | some user =>
    if user.confirmed then (.ok .alreadyConfirmed, db)
    else (.ok .checkYourEmail, db)

/-- Modelled from the spec: the `logout(email)` operation of
§4.4 ("clears stored refresh token"), absent from the provided
sources — clear the principal's stored refresh token. -/
def logout (email : String) (db : DB) : DB :=
  update_token email none db

/-! ### Helper lemmas about the persistence collaborator -/

lemma get_user_by_email_eq (email : String) (db : DB) (u : User)
    (h : get_user_by_email email db = some u) : u.email = email := by
  have := List.find?_some h
  simpa using this

lemma get_user_by_email_update_token (email : String) (t : Option Token) (db : DB) :
    get_user_by_email email (update_token email t db) =
      (get_user_by_email email db).map (fun u => { u with refresh_token := t }) := by
  induction db with
  | nil => rfl
  | cons u us ih =>
    by_cases h : u.email = email
    · simp [get_user_by_email, update_token, List.find?_cons, h]
    · simp only [get_user_by_email, update_token, List.map_cons] at ih ⊢
      simp [List.find?_cons, h, ih]

lemma get_user_by_email_set_confirmed (email : String) (db : DB) :
    get_user_by_email email (set_confirmed email db) =
      (get_user_by_email email db).map (fun u => { u with confirmed := true }) := by
  induction db with
  | nil => rfl
  | cons u us ih =>
    by_cases h : u.email = email
    · simp [get_user_by_email, set_confirmed, List.find?_cons, h]
    · simp only [get_user_by_email, set_confirmed, List.map_cons] at ih ⊢
      simp [List.find?_cons, h, ih]

/-! ### Shared concrete fixtures used by witnesses -/

def cfg0 : AuthConfig := ⟨1, 10, 5⟩

def tokA0 : Token := ⟨"a@b", .refresh, 0, 10⟩

def user0 : User := ⟨"a@b", "hash", true, some tokA0⟩

def db0 : DB := [user0]

/-! ### Claim theorems -/

/-- Claim C7: a decoded token's purpose must equal the purpose expected
by the operation: decoding any unexpired token whose embedded purpose
differs from the expected one fails `WrongPurpose`; in particular an
access token is rejected by the refresh decoder and a refresh token by
the access decoder. -/
theorem decode_wrong_purpose_rejected :
    (∀ (t : Token) (now : Nat) (expected : Purpose),
      ¬ t.exp < now → t.purpose ≠ expected →
      decode expected now t = .error .wrongPurpose) ∧
    (∀ (cfg : AuthConfig) (email : String) (issued now : Nat),
      ¬ issued + cfg.access_ttl < now →
      decode_refresh_token now (create_access_token cfg email issued) =
        .error .wrongPurpose) ∧
    (∀ (cfg : AuthConfig) (email : String) (issued now : Nat),
      ¬ issued + cfg.refresh_ttl < now →
      decode .access now (create_refresh_token cfg email issued) =
        .error .wrongPurpose) := by
  refine ⟨fun t now expected hexp hp => ?_, fun cfg email issued now hexp => ?_,
    fun cfg email issued now hexp => ?_⟩
  · simp [decode, hexp, hp]
  · simp [decode_refresh_token, decode, create_access_token, hexp]
  · simp [decode, create_refresh_token, hexp]

/-- Witness for C7: an access token presented to the refresh decoder,
and a refresh token presented to the access decoder, both fail
`WrongPurpose` on concrete inputs. -/
theorem decode_wrong_purpose_rejected_witness :
    decode_refresh_token 3 (create_access_token cfg0 ("a@b") 2) = .error .wrongPurpose ∧
    decode .access 3 (create_refresh_token cfg0 ("a@b") 2) = .error .wrongPurpose :=
  ⟨decode_wrong_purpose_rejected.2.1 cfg0 ("a@b") 2 3 (by decide),
    decode_wrong_purpose_rejected.2.2 cfg0 ("a@b") 2 3 (by decide)⟩

/-- Claim C8: the `logout(email)` operation clears the principal's
stored refresh token — any principal looked up after `logout` has no
stored refresh token. -/
theorem logout_clears_refresh (email : String) (db : DB) (u : User)
    (h : get_user_by_email email (logout email db) = some u) :
    u.refresh_token = none := by
  rw [logout, get_user_by_email_update_token] at h
  rcases hfind : get_user_by_email email db with _ | v
  · rw [hfind] at h; simp at h
  · rw [hfind] at h
    simp only [Option.map_some'] at h
    cases h
    rfl

/-- Witness for C8 at a concrete database. -/
theorem logout_clears_refresh_witness :
    User.refresh_token ⟨"a@b", "hash", true, none⟩ = none :=
  logout_clears_refresh ("a@b") db0 ⟨"a@b", "hash", true, none⟩ rfl

/-- Claim C10: calling the `request_email` route with an email for
which no principal exists dereferences the missing principal's
`confirmed` attribute (the existence guard comes after the read), so
the call raises `AttributeError` instead of returning `NotFound` or a
no-op. -/
theorem request_email_missing_principal_crashes (email : String) (db : DB)
    (h : get_user_by_email email db = none) :
    request_email email db = (.error (.attributeError ("confirmed")), db) := by
  simp [request_email, h]

/-- Witness for C10 on the empty database. -/
theorem request_email_missing_principal_crashes_witness :
    request_email ("ghost@x") [] = (.error (.attributeError ("confirmed")), []) :=
  request_email_missing_principal_crashes ("ghost@x") [] rfl

/-- Claim C3 (code behaviour at the failing input): presenting a valid,
unexpired refresh token whose subject has no principal makes the
`refresh_token` route dereference `None` (an `AttributeError`), not
fail `NotFound`: the source lacks the `user is None` guard. -/
theorem refresh_missing_principal_attribute_error :
    refreshRoute cfg0 ⟨"ghost@x", .refresh, 0, 10⟩ 5 [] =
      (.error (.attributeError ("refresh_token")), []) := rfl

/-- Claim C1: when a principal presents a decodable (valid, unexpired)
refresh token that differs from the stored one, the route clears the
stored token and fails `ReuseDetected`; and any other failure of the
route leaves the database unchanged. -/
theorem refresh_reuse_detected_revokes :
    (∀ (cfg : AuthConfig) (tok : Token) (now : Nat) (db : DB) (email : String) (user : User),
      decode_refresh_token now tok = .ok email →
      get_user_by_email email db = some user →
      user.refresh_token ≠ some tok →
      refreshRoute cfg tok now db = (.error .reuseDetected, update_token email none db) ∧
      (get_user_by_email email (refreshRoute cfg tok now db).2).map User.refresh_token =
        some none) ∧
    (∀ (cfg : AuthConfig) (tok : Token) (now : Nat) (db : DB) (e : AuthError),
      (refreshRoute cfg tok now db).1 = .error e → e ≠ .reuseDetected →
      (refreshRoute cfg tok now db).2 = db) := by
  constructor
  · intro cfg tok now db email user hdec hfind hne
    have hmail : user.email = email := get_user_by_email_eq email db user hfind
    have hroute : refreshRoute cfg tok now db =
        (.error .reuseDetected, update_token email none db) := by
      simp [refreshRoute, hdec, hfind, hne, hmail]
    refine ⟨hroute, ?_⟩
    rw [hroute]
    simp [get_user_by_email_update_token, hfind]
  · intro cfg tok now db e h1 hne
    rcases hdec : decode_refresh_token now tok with e' | email
    · simp [refreshRoute, hdec]
    · rcases hfind : get_user_by_email email db with _ | user
      · simp [refreshRoute, hdec, hfind]
      · by_cases hne' : user.refresh_token = some tok
        · exfalso
          simp [refreshRoute, hdec, hfind, hne'] at h1
        · exfalso
          simp [refreshRoute, hdec, hfind, hne'] at h1
          exact hne h1.symm

/-- Witness for C1: a concrete mismatched presentation is revoked with
`ReuseDetected`, and a concrete non-reuse failure (expired token) leaves
the database unchanged. -/
theorem refresh_reuse_detected_revokes_witness :
    (refreshRoute cfg0 ⟨"a@b", .refresh, 1, 11⟩ 2 db0 =
      (.error .reuseDetected, update_token ("a@b") none db0) ∧
      (get_user_by_email ("a@b")
        (refreshRoute cfg0 ⟨"a@b", .refresh, 1, 11⟩ 2 db0).2).map User.refresh_token =
        some none) ∧
    (refreshRoute cfg0 tokA0 20 db0).2 = db0 :=
  ⟨refresh_reuse_detected_revokes.1 cfg0 ⟨"a@b", .refresh, 1, 11⟩ 2 db0 ("a@b") user0
      rfl rfl (by decide),
    refresh_reuse_detected_revokes.2 cfg0 tokA0 20 db0 .expired rfl (by decide)⟩

/-- Claim C4: for every confirmed principal with a matching password,
`login` returns an access/refresh pair and persists the returned
refresh token as the principal's stored value, overwriting any prior
value. -/
theorem login_success_persists_refresh
    (verify : String → String → Bool) (cfg : AuthConfig)
    (email password : String) (now : Nat) (db : DB) (user : User)
    (hfind : get_user_by_email email db = some user)
    (hconf : user.confirmed = true)
    (hverify : verify password user.password = true) :
    login verify cfg email password now db =
      (.ok ⟨create_access_token cfg email now, create_refresh_token cfg email now, "bearer"⟩,
        update_token email (some (create_refresh_token cfg email now)) db) ∧
    (get_user_by_email email (login verify cfg email password now db).2).map
        User.refresh_token = some (some (create_refresh_token cfg email now)) := by
  have hmail : user.email = email := get_user_by_email_eq email db user hfind
  have hroute : login verify cfg email password now db =
      (.ok ⟨create_access_token cfg email now, create_refresh_token cfg email now, "bearer"⟩,
        update_token email (some (create_refresh_token cfg email now)) db) := by
    simp [login, hfind, hconf, hverify, hmail]
  refine ⟨hroute, ?_⟩
  rw [hroute]
  simp [get_user_by_email_update_token, hfind]

/-- Witness for C4: a concrete confirmed user with a matching password
logs in and the stored refresh token becomes the returned one. -/
theorem login_success_persists_refresh_witness :
    login (fun p h => p = h) cfg0 ("a@b") ("hash") 3 db0 =
      (.ok ⟨create_access_token cfg0 ("a@b") 3, create_refresh_token cfg0 ("a@b") 3, "bearer"⟩,
        update_token ("a@b") (some (create_refresh_token cfg0 ("a@b") 3)) db0) ∧
    (get_user_by_email ("a@b") (login (fun p h => p = h) cfg0 ("a@b") ("hash") 3 db0).2).map
        User.refresh_token = some (some (create_refresh_token cfg0 ("a@b") 3)) :=
  login_success_persists_refresh (fun p h => p = h) cfg0 ("a@b") ("hash") 3 db0 user0
    rfl rfl (by decide)

/-- Claim C5: `login` fails `NotFound` when no principal exists for the
email, `Unconfirmed` when the confirmed flag is false, and
`BadCredentials` when password verification fails; each of these
failures leaves the database unchanged. -/
theorem login_failures_are_readonly
    (verify : String → String → Bool) (cfg : AuthConfig)
    (email password : String) (now : Nat) (db : DB) :
    (get_user_by_email email db = none →
      login verify cfg email password now db = (.error .notFound, db)) ∧
    (∀ user : User, get_user_by_email email db = some user → user.confirmed = false →
      login verify cfg email password now db = (.error .unconfirmed, db)) ∧
    (∀ user : User, get_user_by_email email db = some user → user.confirmed = true →
      verify password user.password = false →
      login verify cfg email password now db = (.error .badCredentials, db)) := by
  refine ⟨fun hnone => ?_, fun user hfind hconf => ?_, fun user hfind hconf hverify => ?_⟩
  · simp [login, hnone]
  · simp [login, hfind, hconf]
  · simp [login, hfind, hconf, hverify]

/-- Witness for C5: the three failure cases on concrete databases, each
leaving the database as it was. -/
theorem login_failures_are_readonly_witness :
    login (fun p h => p = h) cfg0 ("ghost@x") ("pw") 3 db0 = (.error .notFound, db0) ∧
    login (fun p h => p = h) cfg0 ("a@b") ("pw") 3 [⟨"a@b", "hash", false, none⟩] =
      (.error .unconfirmed, [⟨"a@b", "hash", false, none⟩]) ∧
    login (fun p h => p = h) cfg0 ("a@b") ("wrong") 3 db0 = (.error .badCredentials, db0) :=
  ⟨(login_failures_are_readonly (fun p h => p = h) cfg0 ("ghost@x") ("pw") 3 db0).1 rfl,
    (login_failures_are_readonly (fun p h => p = h) cfg0 ("a@b") ("pw") 3
      [⟨"a@b", "hash", false, none⟩]).2.1 ⟨"a@b", "hash", false, none⟩ rfl rfl,
    (login_failures_are_readonly (fun p h => p = h) cfg0 ("a@b") ("wrong") 3 db0).2.2 user0
      rfl rfl (by decide)⟩

/-- Claim C6: `confirmed_email` fails `NotFound` when the decoded
subject has no principal; an already-confirmed principal yields
`already-confirmed` with no mutation; otherwise the flag is set and the
outcome is `confirmed`, and a second call with the same valid token
yields `already-confirmed`. -/
theorem confirmed_email_route_spec (tok : Token) (now : Nat) (db : DB) (email : String) :
    (get_email_from_token now tok = .ok email →
      get_user_by_email email db = none →
      confirmed_email_route tok now db = (.error .notFound, db)) ∧
    (∀ user : User, get_email_from_token now tok = .ok email →
      get_user_by_email email db = some user → user.confirmed = true →
      confirmed_email_route tok now db = (.ok .alreadyConfirmed, db)) ∧
    (∀ user : User, get_email_from_token now tok = .ok email →
      get_user_by_email email db = some user → user.confirmed = false →
      confirmed_email_route tok now db = (.ok .confirmed, set_confirmed email db) ∧
      (confirmed_email_route tok now (confirmed_email_route tok now db).2).1 =
        .ok .alreadyConfirmed) := by
  refine ⟨fun hdec hnone => ?_, fun user hdec hfind hconf => ?_,
    fun user hdec hfind hconf => ?_⟩
  · simp [confirmed_email_route, hdec, hnone]
  · simp [confirmed_email_route, hdec, hfind, hconf]
  · have hroute : confirmed_email_route tok now db = (.ok .confirmed, set_confirmed email db) := by
      simp [confirmed_email_route, hdec, hfind, hconf]
    refine ⟨hroute, ?_⟩
    rw [hroute]
    have hfind2 : get_user_by_email email (set_confirmed email db) =
        some { user with confirmed := true } := by
      rw [get_user_by_email_set_confirmed, hfind]
      rfl
    simp [confirmed_email_route, hdec, hfind2]

/-- Witness for C6: on a concrete unconfirmed user the route confirms,
and the second call with the same token reports already-confirmed;
on the empty database it fails `NotFound`. -/
theorem confirmed_email_route_spec_witness :
    (confirmed_email_route ⟨"c@d", .emailConfirmation, 0, 9⟩ 1 [] =
      (.error .notFound, []) ) ∧
    (confirmed_email_route ⟨"c@d", .emailConfirmation, 0, 9⟩ 1 [⟨"c@d", "hash", false, none⟩] =
      (.ok .confirmed, set_confirmed ("c@d") [⟨"c@d", "hash", false, none⟩]) ∧
    (confirmed_email_route ⟨"c@d", .emailConfirmation, 0, 9⟩ 1
        (confirmed_email_route ⟨"c@d", .emailConfirmation, 0, 9⟩ 1
          [⟨"c@d", "hash", false, none⟩]).2).1 = .ok .alreadyConfirmed) :=
  ⟨(confirmed_email_route_spec ⟨"c@d", .emailConfirmation, 0, 9⟩ 1 [] ("c@d")).1 rfl rfl,
    (confirmed_email_route_spec ⟨"c@d", .emailConfirmation, 0, 9⟩ 1
      [⟨"c@d", "hash", false, none⟩] ("c@d")).2.2 ⟨"c@d", "hash", false, none⟩ rfl rfl rfl⟩

/-- Claim C2: strict single-use rotation.  Starting from a principal
whose stored token is the presented `tokA`, the first refresh succeeds
and stores the freshly minted token; presenting `tokA` again fails
`ReuseDetected` and clears the stored token; presenting the freshly
minted token afterwards also fails, because it is no longer stored. -/
theorem refresh_single_use_rotation
    (cfg : AuthConfig) (db : DB) (email : String) (user : User) (tokA : Token)
    (t1 t2 t3 : Nat)
    (hsub : tokA.sub = email) (hpur : tokA.purpose = .refresh)
    (hfind : get_user_by_email email db = some user)
    (hstored : user.refresh_token = some tokA)
    (hiat : tokA.iat ≠ t1)
    (h1 : ¬ tokA.exp < t1) (h2 : ¬ tokA.exp < t2)
    (h3 : ¬ t1 + cfg.refresh_ttl < t3) :
    refreshRoute cfg tokA t1 db =
      (.ok ⟨create_access_token cfg email t1, create_refresh_token cfg email t1, "bearer"⟩,
        update_token email (some (create_refresh_token cfg email t1)) db) ∧
    refreshRoute cfg tokA t2
        (update_token email (some (create_refresh_token cfg email t1)) db) =
      (.error .reuseDetected,
        update_token email none
          (update_token email (some (create_refresh_token cfg email t1)) db)) ∧
    (get_user_by_email email
        (update_token email none
          (update_token email (some (create_refresh_token cfg email t1)) db))).map
      User.refresh_token = some none ∧
    (refreshRoute cfg (create_refresh_token cfg email t1) t3
        (update_token email none
          (update_token email (some (create_refresh_token cfg email t1)) db))).1 =
      .error .reuseDetected := by
  have hmail : user.email = email := get_user_by_email_eq email db user hfind
  have hdec1 : decode_refresh_token t1 tokA = .ok email := by
    simp [decode_refresh_token, decode, h1, hpur, hsub]
  have hdec2 : decode_refresh_token t2 tokA = .ok email := by
    simp [decode_refresh_token, decode, h2, hpur, hsub]
  have hdecB : decode_refresh_token t3 (create_refresh_token cfg email t1) = .ok email := by
    simp [decode_refresh_token, decode, create_refresh_token, h3]
  have hBA : some (create_refresh_token cfg email t1) ≠ some tokA := by
    intro hEq
    apply hiat
    have h' : create_refresh_token cfg email t1 = tokA := Option.some.inj hEq
    calc tokA.iat = (create_refresh_token cfg email t1).iat := by rw [h']
      _ = t1 := rfl
  have hfind1 : get_user_by_email email
      (update_token email (some (create_refresh_token cfg email t1)) db) =
      some { user with refresh_token := some (create_refresh_token cfg email t1) } := by
    rw [get_user_by_email_update_token, hfind]
    rfl
  have hfind2 : get_user_by_email email
      (update_token email none
        (update_token email (some (create_refresh_token cfg email t1)) db)) =
      some { user with refresh_token := none } := by
    rw [get_user_by_email_update_token, hfind1]
    rfl
  refine ⟨?_, ?_, ?_, ?_⟩
  · simp [refreshRoute, hdec1, hfind, hstored, hmail]
  · simp [refreshRoute, hdec2, hfind1, hBA, hmail]
  · rw [hfind2]
    rfl
  · simp [refreshRoute, hdecB, hfind2]

/-- Witness for C2: the full rotation/reuse/revocation scenario on a
concrete database and concrete times. -/
theorem refresh_single_use_rotation_witness :
    refreshRoute cfg0 tokA0 1 db0 =
      (.ok ⟨create_access_token cfg0 ("a@b") 1, create_refresh_token cfg0 ("a@b") 1, "bearer"⟩,
        update_token ("a@b") (some (create_refresh_token cfg0 ("a@b") 1)) db0) ∧
    refreshRoute cfg0 tokA0 2
        (update_token ("a@b") (some (create_refresh_token cfg0 ("a@b") 1)) db0) =
      (.error .reuseDetected,
        update_token ("a@b") none
          (update_token ("a@b") (some (create_refresh_token cfg0 ("a@b") 1)) db0)) ∧
    (get_user_by_email ("a@b")
        (update_token ("a@b") none
          (update_token ("a@b") (some (create_refresh_token cfg0 ("a@b") 1)) db0))).map
      User.refresh_token = some none ∧
    (refreshRoute cfg0 (create_refresh_token cfg0 ("a@b") 1) 3
        (update_token ("a@b") none
          (update_token ("a@b") (some (create_refresh_token cfg0 ("a@b") 1)) db0))).1 =
      .error .reuseDetected :=
  refresh_single_use_rotation cfg0 db0 ("a@b") user0 tokA0 1 2 3 rfl rfl rfl rfl
    (by decide) (by decide) (by decide) (by decide)
